import Mathlib

/-!
Shallow embedding of `main_pc_2_openrgb_client` (src/src/main.rs).

The program samples CPU and memory utilization and maps them to RGB colors
sent to OpenRGB controllers.  `f32` values are modelled by `F32`: a rational
number, or one of the IEEE special values NaN and signed infinity.  All the
arithmetic the program performs on the color path is exact on the inputs it
receives (8-bit channel values and clamped blend factors), so the rational
component is a faithful model of the float computations the claims are about;
NaN and infinity are tracked explicitly because the memory-fraction division
can produce them.  Machine integers (`u8`, `usize`, `u64`) are modelled as
`Nat` / `Fin 256` with the saturating `as` casts written out.
-/

/-- Model of Rust `f32` restricted to the values this program can produce:
NaN, signed infinity (`inf true` is `+∞`), or a finite value modelled
exactly as a rational. -/
inductive F32 where
  | nan : F32
  | inf : Bool → F32
  | val : ℚ → F32
deriving DecidableEq

namespace F32

/-- IEEE negation: flips the sign of an infinity, negates a finite value. -/
def fneg : F32 → F32
  | .nan => .nan
  | .inf s => .inf (!s)
  | .val a => .val (-a)

/-- IEEE addition (on the exact-rational model): NaN propagates,
`∞ + (-∞) = NaN`, finite + finite is exact. -/
def fadd : F32 → F32 → F32
  | .nan, _ => .nan
  | _, .nan => .nan
  | .inf s, .inf t => if s = t then .inf s else .nan
  | .inf s, .val _ => .inf s
  | .val _, .inf t => .inf t
  | .val a, .val b => .val (a + b)

/-- IEEE subtraction, `x - y = x + (-y)`. -/
def fsub (x y : F32) : F32 := fadd x (fneg y)

/-- IEEE multiplication: NaN propagates, `∞ * 0 = NaN`, signs multiply. -/
def fmul : F32 → F32 → F32
  | .nan, _ => .nan
  | _, .nan => .nan
  | .inf s, .inf t => .inf (s == t)
  | .inf s, .val a => if a = 0 then .nan else .inf (s == decide (0 < a))
  | .val a, .inf t => if a = 0 then .nan else .inf (t == decide (0 < a))
  | .val a, .val b => .val (a * b)

/-- IEEE division: NaN propagates, `∞ / ∞ = NaN`, `0 / 0 = NaN`,
`x / 0 = ±∞` for finite `x ≠ 0`, `x / ∞ = 0`. -/
def fdiv : F32 → F32 → F32
  | .nan, _ => .nan
  | _, .nan => .nan
  | .inf _, .inf _ => .nan
  | .inf s, .val a => if a = 0 then .inf s else .inf (s == decide (0 < a))
  | .val _, .inf _ => .val 0
  | .val a, .val b =>
      if b = 0 then (if a = 0 then .nan else .inf (decide (0 < a)))
      else .val (a / b)

/-- Rust `f32::clamp(lo, hi)`: `lo` if `self < lo`, `hi` if `self > hi`,
otherwise `self`; NaN stays NaN.  (The program only calls it with
`lo = 0.0, hi = 1.0`.) -/
def fclamp : F32 → ℚ → ℚ → F32
  | .nan, _, _ => .nan
  | .inf true, _, hi => .val hi
  | .inf false, lo, _ => .val lo
  | .val q, lo, hi => .val (if q < lo then lo else if hi < q then hi else q)

/-- Round half away from zero on rationals — the rounding of Rust
`f32::round`. -/
def roundHalfAway (a : ℚ) : ℤ :=
  if 0 ≤ a then ⌊a + 1 / 2⌋ else -⌊-a + 1 / 2⌋

/-- Rust `f32::round`: round half away from zero; NaN and infinities are
unchanged. -/
def round : F32 → F32
  | .nan => .nan
  | .inf s => .inf s
  | .val a => .val ((roundHalfAway a : ℤ) : ℚ)

/-- Truncation toward zero of a rational, as in a Rust float-to-int `as`
cast. -/
def ratTrunc (a : ℚ) : ℤ :=
  if 0 ≤ a then ⌊a⌋ else ⌈a⌉

/-- Saturate an integer into the `u8` range. -/
def truncSat255 (t : ℤ) : Fin 256 :=
  if h : t < 0 then ⟨0, by omega⟩
  else if h2 : 255 < t then ⟨255, by omega⟩
  else ⟨t.toNat, by omega⟩

/-- Rust `as u8` on an `f32`: truncates toward zero and saturates to
`[0, 255]`; NaN casts to `0`, `+∞` to `255`, `-∞` to `0`. -/
def toU8 : F32 → Fin 256
  | .nan => ⟨0, by omega⟩
  | .inf true => ⟨255, by omega⟩
  | .inf false => ⟨0, by omega⟩
  | .val a => truncSat255 (ratTrunc a)

/-- IEEE strict order as a boolean test: NaN compares false with
everything; otherwise `-∞ < finite < +∞` with the rational order on finite
values. -/
def lt : F32 → F32 → Bool
  | .nan, _ => false
  | _, .nan => false
  | .inf false, .inf false => false
  | .inf false, _ => true
  | .inf true, _ => false
  | .val _, .inf true => true
  | .val _, .inf false => false
  | .val a, .val b => decide (a < b)

end F32

/-- `openrgb::data::Color`: three 8-bit channels. -/
structure Color where
  r : Fin 256
  g : Fin 256
  b : Fin 256
deriving DecidableEq

/-- `const WHITE_COLOR: Color = Color::new(127, 127, 127);` -/
def WHITE_COLOR : Color := ⟨127, 127, 127⟩

/-- `const RED_COLOR: Color = Color::new(127, 0, 0);` -/
def RED_COLOR : Color := ⟨127, 0, 0⟩

/-- `const SAMPLE_TIME: f32 = 5.0; // seconds.` -/
def SAMPLE_TIME : ℚ := 5

/-- `const SAMPLE_RATE: u64 = 500;` (milliseconds, used as the sleep
duration of the CPU measurement window). -/
def SAMPLE_RATE : ℕ := 500

/-- `const SAMPLE_BUFFER_SIZE: usize = (SAMPLE_TIME * (1.0 + 1.0 / SAMPLE_RATE as f32)) as usize;`
The float arithmetic is exact enough that the `as usize` truncation agrees
with exact rational arithmetic. -/
def SAMPLE_BUFFER_SIZE : ℕ :=
  (F32.ratTrunc (SAMPLE_TIME * (1 + 1 / (SAMPLE_RATE : ℚ)))).toNat

/-- `fn lerp(value: f32, start: f32, end: f32) -> f32`: clamps `value` to
`[0, 1]`, then returns `start + value * (end - start)`. -/
def lerp (value start stop : F32) : F32 :=
  let value := F32.fclamp value 0 1
  F32.fadd start (F32.fmul value (F32.fsub stop start))

/-- `fn lerp_color(value: f32, start_color: &Color, end_color: &Color) -> Color`:
per-channel `lerp(...).round() as u8`. -/
def lerp_color (value : F32) (start_color end_color : Color) : Color :=
  { r := (lerp value (.val (start_color.r.val : ℚ)) (.val (end_color.r.val : ℚ))).round.toU8
    g := (lerp value (.val (start_color.g.val : ℚ)) (.val (end_color.g.val : ℚ))).round.toU8
    b := (lerp value (.val (start_color.b.val : ℚ)) (.val (end_color.b.val : ℚ))).round.toU8 }

/-- `fn generate_gradient_led_colors`: scales `value` by `size` and maps
index `i ∈ [0, size)` to `lerp_color((scaled - i).clamp(0, 1), start, end)`. -/
def generate_gradient_led_colors (value : F32) (start_color end_color : Color)
    (size : ℕ) : List Color :=
  let scaled_value := F32.fmul value (.val (size : ℚ))
  (List.range size).map (fun (index : ℕ) =>
    lerp_color (F32.fclamp (F32.fsub scaled_value (.val (index : ℚ))) 0 1)
      start_color end_color)

/-- `fn generate_block_led_colors`: `vec![lerp_color(value, start, end); size]`. -/
def generate_block_led_colors (value : F32) (start_color end_color : Color)
    (size : ℕ) : List Color :=
  List.replicate size (lerp_color value start_color end_color)

/-- `ringbuffer::AllocRingBuffer<f32>`: fixed capacity, oldest-first
contents.  (`AllocRingBuffer::new` panics on capacity 0; the program uses
capacity `SAMPLE_BUFFER_SIZE > 0`.) -/
structure RingBuf where
  cap : ℕ
  data : List ℚ
deriving DecidableEq

/-- `AllocRingBuffer::new(cap)`: empty buffer of the given capacity. -/
def RingBuf.empty (cap : ℕ) : RingBuf := ⟨cap, []⟩

/-- `RingBuffer::push`: appends, evicting the oldest element when full. -/
def RingBuf.push (buf : RingBuf) (x : ℚ) : RingBuf :=
  if buf.data.length < buf.cap then ⟨buf.cap, buf.data ++ [x]⟩
  else ⟨buf.cap, buf.data.tail ++ [x]⟩

/-- The smoothed CPU value computed each tick:
`iter().copied().reduce(|a, s| a + s).unwrap_or_default()` divided by
`len() as f32` — a sum-then-divide over the current contents. -/
def windowAvg (buf : RingBuf) : ℚ :=
  (match buf.data with
   | [] => 0
   | x :: xs => xs.foldl (· + ·) x) / (buf.data.length : ℚ)

/-- The CPU phase of one tick of the main loop.  The two `CpuInstant::now()?`
calls are modelled by their `Except` results (snapshots abstracted as `α`);
`(end - start).non_idle() as f32` is the abstract `delta` function.  Returns
the ring buffer state after the tick together with the tick result: on a
measurement error the error propagates (`?`) and the buffer is untouched;
on success the sample is pushed and the smoothed average returned. -/
def tick_cpu_run {α : Type} (buf : RingBuf)
    (startRes endRes : Except String α) (delta : α → α → ℚ) :
    RingBuf × Except String ℚ :=
  match startRes with
  | .error e => (buf, .error e)
  | .ok s =>
    match endRes with
    | .error e => (buf, .error e)
    | .ok t =>
      let buf2 := buf.push (delta s t)
      (buf2, .ok (windowAvg buf2))

/-- `sys.used_memory() as f32 / sys.total_memory() as f32`. -/
def memory_usage (used total : ℕ) : F32 :=
  F32.fdiv (.val (used : ℚ)) (.val (total : ℚ))

/-- An OpenRGB controller as the loop sees it: `controller.name` and
`controller.leds.len()`. -/
structure Controller where
  name : String
  leds : ℕ
deriving DecidableEq

/-- What one iteration of the per-controller loop body does: the warnings
it logs, and `some colors` when `update_leds` is called with `colors`
(`none` when the `continue` branch skips the controller). -/
structure ControllerResult where
  warnings : List String
  update : Option (List Color)
deriving DecidableEq

/-- The `match controller.name.as_str()` dispatch: the colors produced for
a (non-zero-LED) controller plus any warning logged. -/
def dispatch_colors (cpu_usage mem_usage : F32) (name : String)
    (led_count : ℕ) : List Color × List String :=
  if name = "Corsair Dominator Platinum" then
    (generate_gradient_led_colors mem_usage WHITE_COLOR RED_COLOR led_count, [])
  else if name = "Corsair Commander Core" then
    (generate_gradient_led_colors cpu_usage WHITE_COLOR RED_COLOR 24 ++
      (List.replicate 6 (generate_block_led_colors cpu_usage WHITE_COLOR RED_COLOR 5)).flatten,
     [])
  else if name = "G502 HERO Gaming Mouse" then
    (generate_block_led_colors cpu_usage WHITE_COLOR RED_COLOR led_count, [])
  else if name = "MSI X670E GAMING PLUS WIFI (MS-7E16)" then
    ([], [])
  else
    ([], ["Unknown controller: " ++ name])

/-- One iteration of the per-controller loop: warn and `continue` when the
controller reports zero LEDs, otherwise dispatch on the name and call
`update_leds` with the resulting colors (even when they are empty). -/
def process_controller (cpu_usage mem_usage : F32) (c : Controller) :
    ControllerResult :=
  if c.leds = 0 then
    { warnings := ["Controller " ++ c.name ++ " has no LEDs"], update := none }
  else
    let r := dispatch_colors cpu_usage mem_usage c.name c.leds
    { warnings := r.2, update := some r.1 }

/-- The whole per-controller `for` loop of one tick: every controller is
processed, none aborts the loop. -/
def tick_devices (cpu_usage mem_usage : F32) (cs : List Controller) :
    List ControllerResult :=
  cs.map (process_controller cpu_usage mem_usage)

/-- The device names the `match` in the main loop handles explicitly. -/
def recipe_names : List String :=
  ["Corsair Dominator Platinum", "Corsair Commander Core",
   "G502 HERO Gaming Mouse", "MSI X670E GAMING PLUS WIFI (MS-7E16)"]

lemma roundHalfAway_natCast (n : ℕ) : F32.roundHalfAway (n : ℚ) = n := by
  unfold F32.roundHalfAway
  rw [if_pos (by positivity)]
  rw [show ((n : ℚ) + 1 / 2) = 1 / 2 + ((n : ℤ) : ℚ) by push_cast; ring]
  rw [Int.floor_add_int]
  norm_num

lemma ratTrunc_natCast (n : ℕ) : F32.ratTrunc (n : ℚ) = n := by
  unfold F32.ratTrunc
  rw [if_pos (by positivity)]
  exact_mod_cast Int.floor_natCast n

lemma toU8_natCast (n : ℕ) (h : n < 256) : F32.toU8 (.val (n : ℚ)) = ⟨n, h⟩ := by
  rw [show F32.toU8 (.val (n : ℚ)) = F32.truncSat255 (F32.ratTrunc (n : ℚ)) from rfl]
  rw [ratTrunc_natCast]
  unfold F32.truncSat255
  split_ifs with h1 h2
  · exact absurd h1 (by omega)
  · exact absurd h2 (by exact_mod_cast Nat.not_lt.mpr (by omega))
  · apply Fin.ext
    simp

lemma round_toU8_fin (x : Fin 256) : (F32.round (.val ((x.val : ℕ) : ℚ))).toU8 = x := by
  have h := x.isLt
  simp only [F32.round, roundHalfAway_natCast]
  rw [show (((x.val : ℕ) : ℤ) : ℚ) = ((x.val : ℕ) : ℚ) by push_cast; ring]
  rw [toU8_natCast x.val h]

lemma lerp_val_zero (a b : ℚ) : lerp (.val 0) (.val a) (.val b) = .val a := by
  simp [lerp, F32.fclamp, F32.fadd, F32.fmul, F32.fsub, F32.fneg]

lemma lerp_val_one (a b : ℚ) : lerp (.val 1) (.val a) (.val b) = .val b := by
  simp [lerp, F32.fclamp, F32.fadd, F32.fmul, F32.fsub, F32.fneg]
  norm_num

lemma lerp_color_zero (s e : Color) : lerp_color (.val 0) s e = s := by
  obtain ⟨r, g, b⟩ := s
  simp only [lerp_color, lerp_val_zero]
  simp [round_toU8_fin]

lemma lerp_color_one (s e : Color) : lerp_color (.val 1) s e = e := by
  obtain ⟨r, g, b⟩ := e
  simp only [lerp_color, lerp_val_one]
  simp [round_toU8_fin]

lemma fclamp01_of_le_zero (q : ℚ) (h : q ≤ 0) : F32.fclamp (.val q) 0 1 = .val 0 := by
  simp only [F32.fclamp]
  split_ifs with h1 h2
  · rfl
  · exact absurd (lt_of_lt_of_le h2 h) (by norm_num)
  · rw [le_antisymm h (not_lt.mp h1)]

lemma fclamp01_of_one_le (q : ℚ) (h : 1 ≤ q) : F32.fclamp (.val q) 0 1 = .val 1 := by
  simp only [F32.fclamp]
  split_ifs with h1 h2
  · exact absurd (lt_of_le_of_lt h h1) (by norm_num)
  · rfl
  · rw [le_antisymm (not_lt.mp h2) h]

lemma fclamp01_of_mem (q : ℚ) (h0 : 0 ≤ q) (h1 : q ≤ 1) :
    F32.fclamp (.val q) 0 1 = .val q := by
  simp only [F32.fclamp]
  rw [if_neg (not_lt.mpr h0), if_neg (not_lt.mpr h1)]

lemma fclamp01_of_lt_zero (v : F32) (h : F32.lt v (.val 0) = true) :
    F32.fclamp v 0 1 = .val 0 := by
  cases v with
  | nan => simp [F32.lt] at h
  | inf s =>
    cases s with
    | true => simp [F32.lt] at h
    | false => rfl
  | val a =>
    simp only [F32.lt, decide_eq_true_eq] at h
    exact fclamp01_of_le_zero a h.le

lemma fclamp01_of_one_lt (v : F32) (h : F32.lt (.val 1) v = true) :
    F32.fclamp v 0 1 = .val 1 := by
  cases v with
  | nan => simp [F32.lt] at h
  | inf s =>
    cases s with
    | true => rfl
    | false => simp [F32.lt] at h
  | val a =>
    simp only [F32.lt, decide_eq_true_eq] at h
    exact fclamp01_of_one_le a h.le

lemma lerp_color_congr_clamp (v w : F32) (s e : Color)
    (h : F32.fclamp v 0 1 = F32.fclamp w 0 1) : lerp_color v s e = lerp_color w s e := by
  simp only [lerp_color, lerp, h]

/-- Claim C4: for every pair of colors, `lerp_color(0, s, e)` returns exactly
`s` and `lerp_color(1, s, e)` returns exactly `e`, with exact equality on all
three 8-bit channels. -/
theorem lerp_color_endpoints (s e : Color) :
    lerp_color (.val 0) s e = s ∧ lerp_color (.val 1) s e = e :=
  ⟨lerp_color_zero s e, lerp_color_one s e⟩

/-- Claim C5: for every value below 0 the blend equals the one at 0, and for
every value above 1 it equals the one at 1 — the scalar is clamped to `[0,1]`
before blending. -/
theorem lerp_color_clamps_out_of_range (v : F32) (s e : Color) :
    (F32.lt v (.val 0) = true → lerp_color v s e = lerp_color (.val 0) s e) ∧
    (F32.lt (.val 1) v = true → lerp_color v s e = lerp_color (.val 1) s e) := by
  constructor
  · intro h
    apply lerp_color_congr_clamp
    rw [fclamp01_of_lt_zero v h, fclamp01_of_mem 0 le_rfl (by norm_num)]
  · intro h
    apply lerp_color_congr_clamp
    rw [fclamp01_of_one_lt v h, fclamp01_of_mem 1 (by norm_num) le_rfl]

theorem lerp_color_clamps_out_of_range_witness :
    F32.lt (.val (-5)) (.val 0) = true ∧
    lerp_color (.val (-5)) WHITE_COLOR RED_COLOR = lerp_color (.val 0) WHITE_COLOR RED_COLOR ∧
    F32.lt (.val 1) (.val 5) = true ∧
    lerp_color (.val 5) WHITE_COLOR RED_COLOR = lerp_color (.val 1) WHITE_COLOR RED_COLOR :=
  ⟨by norm_num [F32.lt],
   (lerp_color_clamps_out_of_range (.val (-5)) WHITE_COLOR RED_COLOR).1 (by norm_num [F32.lt]),
   by norm_num [F32.lt],
   (lerp_color_clamps_out_of_range (.val 5) WHITE_COLOR RED_COLOR).2 (by norm_num [F32.lt])⟩

/-- Claim C6: the block layout returns exactly `size` colors, every one equal
to `lerp_color(value, start, end)`. -/
theorem block_layout_uniform (value : F32) (s e : Color) (size : ℕ) :
    generate_block_led_colors value s e size = List.replicate size (lerp_color value s e) ∧
    (generate_block_led_colors value s e size).length = size :=
  ⟨rfl, by simp [generate_block_led_colors]⟩

lemma gradient_getElem (v : F32) (s e : Color) (size i : ℕ) (h : i < size) :
    (generate_gradient_led_colors v s e size)[i]? =
      some (lerp_color
        (F32.fclamp (F32.fsub (F32.fmul v (.val (size : ℚ))) (.val (i : ℚ))) 0 1) s e) := by
  simp only [generate_gradient_led_colors, List.getElem?_map, List.getElem?_range, h,
    if_true]
  rfl

lemma gradient_val_half_five (s e : Color) :
    generate_gradient_led_colors (.val (1 / 2)) s e 5 =
      [e, e, lerp_color (.val (1 / 2)) s e, s, s] := by
  simp only [generate_gradient_led_colors, show List.range 5 = [0, 1, 2, 3, 4] from rfl,
    List.map_cons, List.map_nil]
  norm_num [F32.fmul, F32.fsub, F32.fneg, F32.fadd]
  refine ⟨?_, ?_, ?_, ?_, ?_⟩
  · rw [fclamp01_of_one_le _ (by norm_num)]
    exact lerp_color_one s e
  · rw [fclamp01_of_one_le _ (by norm_num)]
    exact lerp_color_one s e
  · rw [fclamp01_of_mem _ (by norm_num) (by norm_num)]
  · rw [fclamp01_of_le_zero _ (by norm_num)]
    exact lerp_color_zero s e
  · rw [fclamp01_of_le_zero _ (by norm_num)]
    exact lerp_color_zero s e

lemma gradient_val_zero (s e : Color) (size : ℕ) :
    generate_gradient_led_colors (.val 0) s e size = List.replicate size s := by
  rw [List.eq_replicate_iff]
  constructor
  · simp [generate_gradient_led_colors]
  · intro c hc
    simp only [generate_gradient_led_colors, List.mem_map, List.mem_range] at hc
    obtain ⟨i, _, rfl⟩ := hc
    rw [show F32.fmul (.val 0) (.val (size : ℚ)) = .val 0 by simp [F32.fmul]]
    rw [show F32.fsub (.val 0) (.val (i : ℚ)) = .val (0 - (i : ℚ)) by
      simp [F32.fsub, F32.fadd, F32.fneg]]
    rw [fclamp01_of_le_zero _ (by simp)]
    exact lerp_color_zero s e

lemma gradient_val_one (s e : Color) (size : ℕ) :
    generate_gradient_led_colors (.val 1) s e size = List.replicate size e := by
  rw [List.eq_replicate_iff]
  constructor
  · simp [generate_gradient_led_colors]
  · intro c hc
    simp only [generate_gradient_led_colors, List.mem_map, List.mem_range] at hc
    obtain ⟨i, hi, rfl⟩ := hc
    rw [show F32.fmul (.val 1) (.val (size : ℚ)) = .val (size : ℚ) by
      simp [F32.fmul]]
    rw [show F32.fsub (.val (size : ℚ)) (.val (i : ℚ)) = .val ((size : ℚ) - (i : ℚ)) by
      simp [F32.fsub, F32.fadd, F32.fneg]; ring]
    rw [fclamp01_of_one_le _ (by
      have : (i : ℚ) + 1 ≤ (size : ℚ) := by exact_mod_cast hi
      linarith)]
    exact lerp_color_one s e

/-- Claim C3: the gradient layout assigns LED `i` the color
`lerp_color(clamp(value * size - i, 0, 1), start, end)`; with size 5 and
value 1/2, LEDs 0 and 1 are fully end-colored, LED 2 is blended at factor
1/2, LEDs 3 and 4 are fully start-colored; value 0 gives all start color
and value 1 all end color. -/
theorem gradient_layout_spec :
    (∀ (v : F32) (s e : Color) (size i : ℕ), i < size →
        (generate_gradient_led_colors v s e size)[i]? =
          some (lerp_color
            (F32.fclamp (F32.fsub (F32.fmul v (.val (size : ℚ))) (.val (i : ℚ))) 0 1) s e)) ∧
    (∀ s e : Color, generate_gradient_led_colors (.val (1 / 2)) s e 5 =
        [e, e, lerp_color (.val (1 / 2)) s e, s, s]) ∧
    (∀ (s e : Color) (size : ℕ),
        generate_gradient_led_colors (.val 0) s e size = List.replicate size s) ∧
    (∀ (s e : Color) (size : ℕ),
        generate_gradient_led_colors (.val 1) s e size = List.replicate size e) :=
  ⟨gradient_getElem, gradient_val_half_five, gradient_val_zero, gradient_val_one⟩

theorem gradient_layout_spec_witness :
    (2 : ℕ) < 5 ∧
    (generate_gradient_led_colors (.val (1 / 2)) WHITE_COLOR RED_COLOR 5)[2]? =
      some (lerp_color
        (F32.fclamp (F32.fsub (F32.fmul (.val (1 / 2)) (.val ((5 : ℕ) : ℚ))) (.val ((2 : ℕ) : ℚ))) 0 1)
        WHITE_COLOR RED_COLOR) :=
  ⟨by norm_num,
   gradient_layout_spec.1 (.val (1 / 2)) WHITE_COLOR RED_COLOR 5 2 (by norm_num)⟩

lemma tick_devices_length (cpu mem : F32) (cs : List Controller) :
    (tick_devices cpu mem cs).length = cs.length := by
  simp [tick_devices]

/-- Claim C7: a controller reporting zero LEDs is logged as a warning and
skipped — no colors are produced and `update_leds` is not called for it —
while every other controller of the tick is still processed. -/
theorem zero_led_device_skipped :
    (∀ (cpu mem : F32) (c : Controller), c.leds = 0 →
        (process_controller cpu mem c).update = none ∧
        (process_controller cpu mem c).warnings =
          ["Controller " ++ c.name ++ " has no LEDs"]) ∧
    (∀ (cpu mem : F32) (cs : List Controller),
        (tick_devices cpu mem cs).length = cs.length) := by
  constructor
  · intro cpu mem c h
    constructor <;> simp [process_controller, h]
  · exact tick_devices_length

theorem zero_led_device_skipped_witness :
    (process_controller (.val 0) (.val 0) ⟨"Corsair Dominator Platinum", 0⟩).update = none ∧
    (process_controller (.val 0) (.val 0) ⟨"Corsair Dominator Platinum", 0⟩).warnings =
      ["Controller " ++ "Corsair Dominator Platinum" ++ " has no LEDs"] :=
  zero_led_device_skipped.1 (.val 0) (.val 0) ⟨"Corsair Dominator Platinum", 0⟩ rfl

/-- Claim C8: a controller whose name is not in the recipe table (and which
reports a nonzero LED count) yields an empty color list and an
"Unknown controller" warning; the dispatch never fails and the rest of the
tick processes every controller. -/
theorem unknown_device_nonfatal :
    (∀ (cpu mem : F32) (c : Controller), c.leds ≠ 0 → c.name ∉ recipe_names →
        (process_controller cpu mem c).update = some [] ∧
        (process_controller cpu mem c).warnings = ["Unknown controller: " ++ c.name]) ∧
    (∀ (cpu mem : F32) (cs : List Controller),
        (tick_devices cpu mem cs).length = cs.length) := by
  constructor
  · intro cpu mem c h hn
    simp only [recipe_names, List.mem_cons, List.mem_singleton, not_or] at hn
    obtain ⟨h1, h2, h3, h4, -⟩ := hn
    constructor <;>
      simp [process_controller, dispatch_colors, h, h1, h2, h3, h4]
  · exact tick_devices_length

theorem unknown_device_nonfatal_witness :
    (process_controller (.val 0) (.val 0) ⟨"Razer Kraken", 4⟩).update = some [] ∧
    (process_controller (.val 0) (.val 0) ⟨"Razer Kraken", 4⟩).warnings =
      ["Unknown controller: " ++ "Razer Kraken"] :=
  unknown_device_nonfatal.1 (.val 0) (.val 0) ⟨"Razer Kraken", 4⟩ (by decide)
    (by decide)

/-- Claim C9: if either `CpuInstant::now()` of a tick fails, the tick
returns the error unchanged and the sliding window is exactly what it was —
no sample is pushed and no zero is substituted; the sample is pushed only
when both measurements succeed. -/
theorem cpu_measurement_failure_aborts_tick {α : Type} (buf : RingBuf)
    (delta : α → α → ℚ) :
    (∀ (msg : String) (endRes : Except String α),
        tick_cpu_run buf (.error msg) endRes delta = (buf, .error msg)) ∧
    (∀ (msg : String) (s : α),
        tick_cpu_run buf (.ok s) (.error msg) delta = (buf, .error msg)) ∧
    (∀ s t : α,
        tick_cpu_run buf (.ok s) (.ok t) delta =
          (buf.push (delta s t), .ok (windowAvg (buf.push (delta s t))))) :=
  ⟨fun _ _ => rfl, fun _ _ => rfl, fun _ _ => rfl⟩

lemma lerp_color_nan (s e : Color) : lerp_color F32.nan s e = ⟨0, 0, 0⟩ := by
  simp [lerp_color, lerp, F32.fclamp, F32.fmul, F32.fadd, F32.round, F32.toU8]

lemma gradient_nan (s e : Color) (size : ℕ) :
    generate_gradient_led_colors F32.nan s e size = List.replicate size ⟨0, 0, 0⟩ := by
  rw [List.eq_replicate_iff]
  constructor
  · simp [generate_gradient_led_colors]
  · intro c hc
    simp only [generate_gradient_led_colors, List.mem_map, List.mem_range] at hc
    obtain ⟨i, _, rfl⟩ := hc
    rw [show F32.fmul F32.nan (.val (size : ℚ)) = F32.nan from rfl]
    rw [show F32.fsub F32.nan (.val (i : ℚ)) = F32.nan from rfl]
    rw [show F32.fclamp F32.nan 0 1 = F32.nan from rfl]
    exact lerp_color_nan s e

/-- Claim C10: the memory fraction is an unguarded division.  With
`total > 0` and `used ≤ total` it is a finite value in `[0, 1]`; with
`total = 0` (hence `used = 0`) it is NaN, and NaN flowing into the gradient
computation still yields a fully defined color list (every channel's `as u8`
cast maps NaN to 0) rather than an error. -/
theorem memory_division_behavior :
    (∀ used total : ℕ, used ≤ total → 0 < total →
        memory_usage used total = .val ((used : ℚ) / (total : ℚ)) ∧
        0 ≤ (used : ℚ) / (total : ℚ) ∧ (used : ℚ) / (total : ℚ) ≤ 1) ∧
    (∀ used total : ℕ, used ≤ total → total = 0 →
        memory_usage used total = F32.nan) ∧
    (∀ (s e : Color) (size : ℕ),
        generate_gradient_led_colors F32.nan s e size =
          List.replicate size ⟨0, 0, 0⟩) := by
  refine ⟨?_, ?_, gradient_nan⟩
  · intro used total hle hpos
    have htot : ((total : ℚ)) ≠ 0 := by positivity
    refine ⟨by simp [memory_usage, F32.fdiv, htot], by positivity, ?_⟩
    rw [div_le_one (by positivity)]
    exact_mod_cast hle
  · intro used total hle h0
    subst h0
    have : used = 0 := Nat.le_zero.mp hle
    subst this
    simp [memory_usage, F32.fdiv]

theorem memory_division_behavior_witness :
    memory_usage 0 0 = F32.nan ∧
    memory_usage 1 2 = .val ((1 : ℚ) / 2) :=
  ⟨memory_division_behavior.2.1 0 0 le_rfl rfl,
   ((memory_division_behavior.1 1 2 (by norm_num) (by norm_num)).1).trans (by norm_num)⟩

theorem dispatcher_commander_core_length_cex :
    (process_controller (.val 0) (.val 0)
        ⟨"Corsair Commander Core", 1⟩).update.map List.length = some 54 ∧
    (54 : ℕ) ≠ 1 := by
  constructor
  · simp [process_controller, dispatch_colors, generate_gradient_led_colors,
      generate_block_led_colors]
  · decide

/-- Claim C2 (amended): the Dominator Platinum and G502 recipes produce
exactly `led_count` colors; the Commander Core recipe produces a fixed
composite of segments `24 + 6 * 5 = 54`, independent of the reported LED
count; the explicitly excluded MSI board yields the empty list. -/
theorem dispatcher_recognized_lengths (cpu mem : F32) (n : ℕ) (h : 0 < n) :
    (process_controller cpu mem
        ⟨"Corsair Dominator Platinum", n⟩).update.map List.length = some n ∧
    (process_controller cpu mem
        ⟨"G502 HERO Gaming Mouse", n⟩).update.map List.length = some n ∧
    (process_controller cpu mem
        ⟨"Corsair Commander Core", n⟩).update.map List.length = some (24 + 6 * 5) ∧
    (process_controller cpu mem
        ⟨"MSI X670E GAMING PLUS WIFI (MS-7E16)", n⟩).update = some [] := by
  have hn : n ≠ 0 := Nat.pos_iff_ne_zero.mp h
  refine ⟨?_, ?_, ?_, ?_⟩ <;>
    simp [process_controller, dispatch_colors, hn, generate_gradient_led_colors,
      generate_block_led_colors]

theorem dispatcher_recognized_lengths_witness :
    (0 : ℕ) < 8 ∧
    (process_controller (.val 0) (.val 0)
        ⟨"Corsair Dominator Platinum", 8⟩).update.map List.length = some 8 :=
  ⟨by norm_num, (dispatcher_recognized_lengths (.val 0) (.val 0) 8 (by norm_num)).1⟩

lemma sample_buffer_size_eq : SAMPLE_BUFFER_SIZE = 5 := by
  have h : F32.ratTrunc (SAMPLE_TIME * (1 + 1 / (SAMPLE_RATE : ℚ))) = 5 := by
    unfold F32.ratTrunc SAMPLE_TIME SAMPLE_RATE
    rw [if_pos (by norm_num), Int.floor_eq_iff]
    norm_num
  unfold SAMPLE_BUFFER_SIZE
  rw [h]
  rfl

/-- Claim C1 (code evaluation): `SAMPLE_BUFFER_SIZE` evaluates to 5, not 10;
pushing the 15 distinct samples 1..15 leaves the last 5 samples in the
window and a smoothed value of 13, which differs from the mean of the last
10 pushed samples. -/
theorem cpu_window_capacity_eval :
    SAMPLE_BUFFER_SIZE = 5 ∧
    (([1, 2, 3, 4, 5, 6, 7, 8, 9, 10, 11, 12, 13, 14, 15] : List ℚ).foldl RingBuf.push
        (RingBuf.empty SAMPLE_BUFFER_SIZE)).data = [11, 12, 13, 14, 15] ∧
    windowAvg (([1, 2, 3, 4, 5, 6, 7, 8, 9, 10, 11, 12, 13, 14, 15] : List ℚ).foldl
        RingBuf.push (RingBuf.empty SAMPLE_BUFFER_SIZE)) = 13 ∧
    (13 : ℚ) ≠ (6 + 7 + 8 + 9 + 10 + 11 + 12 + 13 + 14 + 15) / 10 := by
  have h5 : SAMPLE_BUFFER_SIZE = 5 := sample_buffer_size_eq
  have hbuf : (([1, 2, 3, 4, 5, 6, 7, 8, 9, 10, 11, 12, 13, 14, 15] : List ℚ).foldl
      RingBuf.push (RingBuf.empty SAMPLE_BUFFER_SIZE)) = ⟨5, [11, 12, 13, 14, 15]⟩ := by
    rw [h5]
    rfl
  refine ⟨h5, by rw [hbuf], ?_, by norm_num⟩
  rw [hbuf]
  norm_num [windowAvg, List.foldl]
